import Mathlib

/-!
Shallow embedding of `vhost-generator.py`, a tenant-provisioning pipeline
(Locate artifact -> fetch -> write vhost config -> create database ->
deploy -> register DNS).  External collaborators (Elastic Beanstalk, S3,
MySQL, Route 53, the filesystem and the clock) are modelled as explicit
inputs: the outcome of each external call is a field of an environment
record, and `sys.exit(1)` is modelled as an explicit `exited` outcome.
-/

/-- Configuration loaded from `variables.py` (module-level constants of the
source; the file itself is configuration, so its values are parameters). -/
structure Config where
  domain : String
  app_name : String
  env_id : String
  env_name : String
  bucket : String
  hosted_zone_id : String
  eb_url : String
  rds_hostname : String
  rds_username : String
  rds_password : String
  rds_port : String
deriving DecidableEq, Repr

/-- A clock reading as used by `datetime.now()` in `deploy_app`: the six
fields the source formats.  Python's `datetime` guarantees
`1 <= year <= 9999`, `1 <= month <= 12`, `1 <= day <= 31`, `hour <= 23`,
`minute <= 59`, `second <= 59`; see `validDT`. -/
structure DT where
  year : Nat
  month : Nat
  day : Nat
  hour : Nat
  minute : Nat
  second : Nat
deriving DecidableEq, Repr

/-- The invariants Python's `datetime` type guarantees for the six fields
formatted by `deploy_app`. -/
def validDT (t : DT) : Bool :=
  1 ≤ t.year && t.year ≤ 9999 && 1 ≤ t.month && t.month ≤ 12 &&
  1 ≤ t.day && t.day ≤ 31 && t.hour ≤ 23 && t.minute ≤ 59 && t.second ≤ 59

/-- The decimal digit character for `d % 10`. -/
def digitChar (d : Nat) : Char := Char.ofNat (48 + d % 10)

/-- Decimal digits of `n`, most significant first, by repeated division;
`fuel` bounds the recursion and any `fuel ≥ n` is enough. -/
def decReprAux : Nat → Nat → List Char
  | 0, _ => []
  | fuel + 1, n => if n = 0 then [] else decReprAux fuel (n / 10) ++ [digitChar (n % 10)]

/-- Decimal representation of `n` (at least one digit). -/
def decRepr (n : Nat) : List Char :=
  if n = 0 then ['0'] else decReprAux n n

/-- Python `'{:0wd}'.format(n)`: the decimal representation of `n`
left-padded with zeros to a minimum width `w`. -/
def padDec (w n : Nat) : List Char :=
  List.replicate (w - (decRepr n).length) '0' ++ decRepr n

/-- The characters of the timestamp `deploy_app` builds with
`'{:04d}{:02d}{:02d}-{:02d}{:02d}{:02d}'`. -/
def dateChars (t : DT) : List Char :=
  padDec 4 t.year ++ padDec 2 t.month ++ padDec 2 t.day ++ '-' ::
  (padDec 2 t.hour ++ padDec 2 t.minute ++ padDec 2 t.second)

/-- The timestamp string of `deploy_app`. -/
def fmtDate (t : DT) : String := String.mk (dateChars t)

/-- The version label `deploy_app` generates:
`'{0}-{1}'.format(domain, date)`. -/
def newAppVersion (domain : String) (t : DT) : String :=
  domain ++ "-" ++ fmtDate t

/-- Does the pattern match at the head of the text?  The pattern language is
the fragment of Python regular expressions the source actually feeds to
`re.search` in `check_version`: every character is a literal except `.`,
which matches any single character other than a newline. -/
def matchHere : List Char → List Char → Bool
  | [], _ => true
  | _ :: _, [] => false
  | p :: ps, c :: cs => (if p = '.' then c != '\n' else p == c) && matchHere ps cs

/-- Does the pattern match starting at some position of the text?  This is
Python `re.search(pat, s)` for the literal-plus-dot pattern fragment of
`matchHere`. -/
def searchFrom (pat : List Char) : List Char → Bool
  | [] => matchHere pat []
  | c :: cs => matchHere pat (c :: cs) || searchFrom pat cs

/-- `re.search` on strings (for the literal-plus-dot pattern fragment). -/
def reSearch (pat s : String) : Bool := searchFrom pat.data s.data

/-- Python whitespace, as recognized by `str.strip()`. -/
def isPySpace (c : Char) : Bool :=
  c == ' ' || c == '\t' || c == '\n' || c == '\r' || c == '\x0b' || c == '\x0c'

/-- Python `str.strip()`: remove leading and trailing whitespace. -/
def pyStrip (s : String) : String :=
  String.mk (((s.data.dropWhile isPySpace).reverse.dropWhile isPySpace).reverse)

/-- Writing the bucket listing to `/tmp/object_list.txt`: the file is opened
in append mode (`open(object_list, 'a')`), so each `fh.write(key + "\n")` of
the loop goes after whatever the file already holds. -/
def writeListing (pre : String) : List String → String
  | [] => pre
  | k :: rest => writeListing (pre ++ (k ++ "\n")) rest

/-- Iterating a Python file handle (`for key in fh`): the text is split after
each newline, every chunk keeping its trailing newline; a last chunk without
a newline is yielded as is, and nothing is yielded for empty text. -/
def pyLinesAux : List Char → List Char → List String
  | acc, [] => if acc.isEmpty then [] else [String.mk acc.reverse]
  | acc, c :: cs =>
    if c = '\n' then String.mk (acc.reverse ++ ['\n']) :: pyLinesAux [] cs
    else pyLinesAux (c :: acc) cs

/-- Line iteration of a whole file, Python style. -/
def pyLines (s : String) : List String := pyLinesAux [] s.data

/-- The search loop of `check_version`: write the listing to the index file
(append mode), then scan the file line by line and return the first stripped
line matched by `re.search(current_version + ".zip", line)`; `none` models
the implicit `return None` when no line matches. -/
def searchFile (v : String) (pre : String) (listing : List String) : Option String :=
  (pyLines (writeListing pre listing)).findSome? fun line =>
    if reSearch (v ++ ".zip") line then some (pyStrip line) else none

/-- `check_version`: obtain the live version label from Elastic Beanstalk
(`ebVersion`; an exception there is caught and turned into `sys.exit(1)`,
modelled as `Except.error`), then run the file-backed search.  A run with no
matching key returns `Except.ok none` — the Python function just falls off
the end and returns `None`. -/
def check_version (ebVersion : Except Unit String) (pre : String)
    (listing : List String) : Except Unit (Option String) :=
  match ebVersion with
  | .error e => .error e
  | .ok v => .ok (searchFile v pre listing)

/-- Index of the last occurrence of `c` in the list, if any. -/
def lastIdxOf (c : Char) : List Char → Option Nat
  | [] => none
  | x :: xs =>
    match lastIdxOf c xs with
    | some i => some (i + 1)
    | none => if x = c then some 0 else none

/-- Python `os.path.splitext(p)[0]`: cut the extension at the last dot of the
final path component, except when that component consists of leading dots up
to there (so `.bashrc` keeps its name). -/
def splitextRoot (p : String) : String :=
  let cs := p.data
  match lastIdxOf '.' cs with
  | none => p
  | some di =>
    let start := match lastIdxOf '/' cs with | none => 0 | some si => si + 1
    if start ≤ di && ((cs.drop start).take (di - start)).any (fun c => c != '.')
    then String.mk (cs.take di) else p

/-- `download_from_s3`: with `key = None` (Python `check_version` found no
match) the S3 download call raises and the except branch exits; with a key,
the download, the `os.makedirs` of a fresh extraction directory and the zip
extraction either all succeed (`downloadOk`) or the first failure exits.  On
success it returns the extraction path `os.path.splitext('/tmp/' + key)[0]`. -/
def download_from_s3 (key : Option String) (downloadOk : Bool) : Except Unit String :=
  match key with
  | none => .error ()
  | some k => if downloadOk then .ok (splitextRoot ("/tmp/" ++ k)) else .error ()

/-- The text `create_vhost` writes: the source template with `customer`,
`domain` and the RDS connection values interpolated (plain textual
interpolation, no escaping). -/
def vhostConfig (customer domain host user pass port : String) : String :=
  "<VirtualHost *:80>\n    ServerName " ++ customer ++ "." ++ domain ++
  "\n    ServerAlias www." ++ customer ++ "." ++ domain ++
  "\n    DocumentRoot /var/www/clients/" ++ customer ++
  "\n\n    SetEnv RDS_HOSTNAME \"" ++ host ++
  "\"\n    SetEnv RDS_DB_NAME \"" ++ customer ++
  "\"\n    SetEnv RDS_USERNAME \"" ++ user ++
  "\"\n    SetEnv RDS_PASSWORD \"" ++ pass ++
  "\"\n    SetEnv RDS_PORT \"" ++ port ++
  "\"\n</VirtualHost>\n"

/-- `create_vhost`: write the rendered template to
`{extraction_path}/.ebextensions/vhosts/{customer}.conf`; a write failure
(for instance a missing vhosts directory) is caught and exits.  The model
returns the path and the written text. -/
def create_vhost (customer extraction_path : String) (cfg : Config)
    (writeOk : Bool) : Except Unit (String × String) :=
  if writeOk then
    .ok (extraction_path ++ "/.ebextensions/vhosts/" ++ customer ++ ".conf",
      vhostConfig customer cfg.domain cfg.rds_hostname cfg.rds_username
        cfg.rds_password cfg.rds_port)
  else .error ()

/-- `create_db`: `pymysql.connect` runs outside the try block, so a
connection failure raises to the caller (`Except.error`).  Once connected,
the `CREATE DATABASE` and `GRANT` statements run inside a try whose except
branch logs and calls `db.rollback()`, and the function returns normally
either way; the returned Bool records whether the rollback ran. -/
def create_db (connectOk execOk : Bool) : Except Unit Bool :=
  if connectOk then .ok (!execOk) else .error ()

/-- The status-poll loop of `deploy_app` (`while True`, no sleep, no counter):
under `fuel` iterations, does some response in the sequence report the status
string `'PROCESSED'` the loop compares against? -/
def pollLoop (statuses : Nat → String) : Nat → Bool
  | 0 => false
  | fuel + 1 => statuses 0 == "PROCESSED" || pollLoop (fun n => statuses (n + 1)) fuel

/-- Outcome of a run fragment: a returned value, process termination by
`sys.exit(1)`, or no termination within the available poll fuel (the
unbounded `while True` loop never observed the status it waits for). -/
inductive RunOutcome (α : Type) where
  | ok : α → RunOutcome α
  | exited : RunOutcome α
  | hung : RunOutcome α
deriving DecidableEq, Repr

/-- `deploy_app`: build the version label from the configured domain and the
clock, archive and upload the bundle and register the application version
(any failure exits via the except branch), poll the version status until it
is `'PROCESSED'`, update the environment (failure exits), and only then call
`clean_up` and return the label.  The Bool records whether `clean_up` ran:
it is on no other path of the source. -/
def deploy_app (cfg : Config) (now : DT) (uploadOk : Bool)
    (statuses : Nat → String) (updateEnvOk : Bool) (fuel : Nat) :
    RunOutcome String × Bool :=
  let label := newAppVersion cfg.domain now
  if uploadOk then
    if pollLoop statuses fuel then
      if updateEnvOk then (.ok label, true) else (.exited, false)
    else (.hung, false)
  else (.exited, false)

/-- `create_dns_record`: submit a CREATE change for a CNAME record named
`customer_url`; an API failure is caught and exits.  On success the record
name is returned. -/
def create_dns_record (customer_url : String) (dnsOk : Bool) : Except Unit String :=
  if dnsOk then .ok customer_url else .error ()

/-- Outcomes of every external interaction of one run, given as inputs to
the model: the Elastic Beanstalk version query, the pre-existing contents of
`/tmp/object_list.txt`, the bucket listing, and a success flag for each
effectful step, plus the poll-response sequence and the clock reading. -/
structure Env where
  ebVersion : Except Unit String
  preFile : String
  listing : List String
  downloadOk : Bool
  vhostWriteOk : Bool
  dbConnectOk : Bool
  dbExecOk : Bool
  uploadOk : Bool
  pollStatuses : Nat → String
  updateEnvOk : Bool
  dnsOk : Bool
  now : DT

/-- The success payload `main` assembles (its dictionary keys). -/
structure Output where
  CustomerName : String
  DeploymentVersion : String
  Status : String
  RdsHostname : String
  RdsDbName : String
  RdsPort : String
  Domain : String
  EnvId : String
  EnvName : String
deriving DecidableEq, Repr

/-- What one run did: its outcome, whether `clean_up` executed, which
database name (if any) the `CREATE DATABASE` statement was issued for,
whether `create_db` rolled back, and which DNS record name (if any) the
Route 53 change was submitted for. -/
structure MainRes where
  outcome : RunOutcome Output
  cleanupRan : Bool
  dbCreateIssued : Option String
  dbRolledBack : Bool
  dnsRequested : Option String
deriving DecidableEq, Repr

/-- The tail of `main` after `create_db` returned: deploy, then register the
DNS record, then assemble the output dictionary.  `rolledBack` is only
recorded, it influences nothing downstream. -/
def mainAfterDb (customer customer_url : String) (cfg : Config) (env : Env)
    (fuel : Nat) (rolledBack : Bool) : MainRes :=
  match deploy_app cfg env.now env.uploadOk env.pollStatuses env.updateEnvOk fuel with
  | (.hung, c) => ⟨.hung, c, some customer, rolledBack, none⟩
  | (.exited, c) => ⟨.exited, c, some customer, rolledBack, none⟩
  | (.ok label, c) =>
    match create_dns_record customer_url env.dnsOk with
    | .error _ => ⟨.exited, c, some customer, rolledBack, some customer_url⟩
    | .ok _ =>
      ⟨.ok { CustomerName := customer, DeploymentVersion := label,
             Status := "deployed", RdsHostname := cfg.rds_hostname,
             RdsDbName := customer, RdsPort := cfg.rds_port,
             Domain := customer_url, EnvId := cfg.env_id,
             EnvName := cfg.env_name },
       c, some customer, rolledBack, some customer_url⟩

/-- `main(event, context)` (named `mainRun` here because Lean reserves the
name `main` for executables): read the customer id from the event (a missing
key raises and exits), build `customer_url`, then run the stages in order;
any `Except.error` from a stage is `sys.exit(1)`.  No validation of the
customer id happens anywhere on the way. -/
def mainRun : Option String → Config → Env → Nat → MainRes
  | none, _, _, _ => ⟨.exited, false, none, false, none⟩
  | some customer, cfg, env, fuel =>
    match check_version env.ebVersion env.preFile env.listing with
    | .error _ => ⟨.exited, false, none, false, none⟩
    | .ok key =>
      match download_from_s3 key env.downloadOk with
      | .error _ => ⟨.exited, false, none, false, none⟩
      | .ok extraction_path =>
        match create_vhost customer extraction_path cfg env.vhostWriteOk with
        | .error _ => ⟨.exited, false, none, false, none⟩
        | .ok _ =>
          match create_db env.dbConnectOk env.dbExecOk with
          | .error _ => ⟨.exited, false, none, false, none⟩
          | .ok rolledBack =>
            mainAfterDb customer (customer ++ "." ++ cfg.domain) cfg env fuel rolledBack

/-- The key `check_version` hands to the download step, if the run gets a
live version label at all. -/
def keyFound (env : Env) : Option String :=
  match env.ebVersion with
  | .error _ => none
  | .ok v => searchFile v env.preFile env.listing

/-- Does the run reach the `deploy_app` stage?  It does exactly when the
event has a customer id, the version query succeeds, a key matches, and the
download, vhost write and database connection all succeed. -/
def reachesDeployB (customer? : Option String) (env : Env) : Bool :=
  customer?.isSome && (match env.ebVersion with | .ok _ => true | .error _ => false) &&
  (keyFound env).isSome && env.downloadOk && env.vhostWriteOk && env.dbConnectOk

/-- Does `deploy_app` run to completion: upload and registration succeed, the
poll loop observes `'PROCESSED'` within the fuel, and the environment update
succeeds? -/
def deployCompletesB (env : Env) (fuel : Nat) : Bool :=
  env.uploadOk && pollLoop env.pollStatuses fuel && env.updateEnvOk

/-- Modelled from the spec: the identifier grammar for `customerId` (a valid
subdomain label and database identifier token: nonempty, at most 63
characters, alphanumeric or underscore).  The source has no counterpart —
the baseline performs no validation — so this encodes the wording of the
data-model section of the spec. -/
def validIdent (s : String) : Bool :=
  1 ≤ s.length && s.length ≤ 63 && s.data.all (fun c => c.isAlphanum || c == '_')

/-- A sample configuration for concrete runs. -/
def cfgEx : Config :=
  { domain := "example.com", app_name := "app", env_id := "e-123",
    env_name := "prod", bucket := "bkt", hosted_zone_id := "Z1",
    eb_url := "app.eb.amazonaws.com", rds_hostname := "db.internal",
    rds_username := "appuser", rds_password := "secret", rds_port := "3306" }

/-- A sample clock reading. -/
def dtEx : DT := ⟨2024, 5, 6, 7, 8, 9⟩

/-- A sample environment in which every external interaction succeeds. -/
def envGood : Env :=
  { ebVersion := .ok "v2", preFile := "", listing := ["v1.zip", "v2.zip", "v3.zip"],
    downloadOk := true, vhostWriteOk := true, dbConnectOk := true,
    dbExecOk := true, uploadOk := true, pollStatuses := fun _ => "PROCESSED",
    updateEnvOk := true, dnsOk := true, now := dtEx }

/-- The output of the all-success sample run. -/
def outEx : Output :=
  { CustomerName := "acme", DeploymentVersion := "example.com-20240506-070809",
    Status := "deployed", RdsHostname := "db.internal", RdsDbName := "acme",
    RdsPort := "3306", Domain := "acme.example.com", EnvId := "e-123",
    EnvName := "prod" }

instance {ε α : Type} [DecidableEq ε] [DecidableEq α] : DecidableEq (Except ε α) := fun
  | .error a, .error b =>
    if h : a = b then .isTrue (by rw [h]) else .isFalse (by intro hc; injection hc; contradiction)
  | .error _, .ok _ => .isFalse (by intro hc; exact Except.noConfusion hc)
  | .ok _, .error _ => .isFalse (by intro hc; exact Except.noConfusion hc)
  | .ok a, .ok b =>
    if h : a = b then .isTrue (by rw [h]) else .isFalse (by intro hc; injection hc; contradiction)

/-- One step of reading a decimal number back from its digit characters. -/
def digStep (a : Nat) (c : Char) : Nat := 10 * a + (c.toNat - 48)

/-- The number denoted by a list of decimal digit characters. -/
def valDigits (l : List Char) : Nat := l.foldl digStep 0

/-- Does the needle occur literally at the head of the text? -/
def litHere : List Char → List Char → Bool
  | [], _ => true
  | _ :: _, [] => false
  | p :: ps, c :: cs => p == c && litHere ps cs

/-- Number of positions of the text at which the needle occurs literally
(occurrences may overlap; the position past the end is not counted, which
loses nothing for a nonempty needle). -/
def countOcc (needle : List Char) : List Char → Nat
  | [] => 0
  | c :: cs => (if litHere needle (c :: cs) then 1 else 0) + countOcc needle cs

/-- Occurrence count of a literal substring in a string. -/
def strCount (needle s : String) : Nat := countOcc needle.data s.data

/-- Does the string end with the given literal suffix? -/
def strEndsWith (s suf : String) : Bool :=
  s.data.reverse.take suf.data.length == suf.data.reverse

/-- The vhost text of the sample run: customer `acme`, the sample
configuration. -/
def vhostEx : String :=
  vhostConfig "acme" "example.com" "db.internal" "appuser" "secret" "3306"

/-! Sanity checks: the model evaluated on small concrete inputs. -/

example : fmtDate ⟨2024, 5, 6, 7, 8, 9⟩ = "20240506-070809" := by decide

example : newAppVersion "example.com" ⟨2024, 12, 31, 23, 59, 58⟩ =
    "example.com-20241231-235958" := by decide

example : reSearch "v2.zip" "v2.zip\n" = true := by decide

example : reSearch "v2.zip" "v2_zip_backup\n" = true := by decide

example : reSearch "v2.zip" "v1.zip\n" = false := by decide

example : pyStrip "v2.zip\n" = "v2.zip" := by decide

example : pyLines "a\nbc\n" = ["a\n", "bc\n"] := by decide

example : pyLines "a\nbc" = ["a\n", "bc"] := by decide

example : splitextRoot "/tmp/v2.zip" = "/tmp/v2" := by decide

example : splitextRoot "/tmp/.bashrc" = "/tmp/.bashrc" := by decide

example : splitextRoot "/tmp/app-1.0.zip" = "/tmp/app-1.0" := by decide

example : mainRun (some "acme") cfgEx envGood 1 =
    ⟨.ok outEx, true, some "acme", false, some "acme.example.com"⟩ := by decide

theorem digitChar_toNat (d : Nat) : (digitChar d).toNat = 48 + d % 10 := by
  have h : d % 10 < 10 := Nat.mod_lt _ (by norm_num)
  unfold digitChar
  generalize d % 10 = r at h ⊢
  interval_cases r <;> decide

theorem foldl_digStep_append (a : Nat) (xs : List Char) (c : Char) :
    (xs ++ [c]).foldl digStep a = 10 * xs.foldl digStep a + (c.toNat - 48) := by
  rw [List.foldl_append]
  rfl

theorem decReprAux_foldl :
    ∀ fuel n a, n ≤ fuel →
      (decReprAux fuel n).foldl digStep a = a * 10 ^ (decReprAux fuel n).length + n := by
  intro fuel
  induction fuel with
  | zero =>
    intro n a h
    interval_cases n
    simp [decReprAux]
  | succ f ih =>
    intro n a h
    by_cases hn : n = 0
    · subst hn; simp [decReprAux]
    · rw [decReprAux, if_neg hn, foldl_digStep_append, ih (n / 10) a (by omega),
        digitChar_toNat]
      rw [List.length_append, List.length_singleton, pow_succ, ← mul_assoc]
      generalize a * (10 : Nat) ^ (decReprAux f (n / 10)).length = A
      omega

theorem valDigits_decRepr (n : Nat) : valDigits (decRepr n) = n := by
  by_cases hn : n = 0
  · subst hn; decide
  · unfold decRepr valDigits
    rw [if_neg hn, decReprAux_foldl n n 0 le_rfl]
    simp

theorem foldl_digStep_zeros : ∀ k, (List.replicate k '0').foldl digStep 0 = 0 := by
  intro k
  induction k with
  | zero => rfl
  | succ m ih => rw [List.replicate_succ, List.foldl_cons]; exact ih

theorem valDigits_padDec (w n : Nat) : valDigits (padDec w n) = n := by
  unfold padDec valDigits
  rw [List.foldl_append, foldl_digStep_zeros]
  exact valDigits_decRepr n

theorem padDec_inj {w n m : Nat} (h : padDec w n = padDec w m) : n = m := by
  have hv := congrArg valDigits h
  rwa [valDigits_padDec, valDigits_padDec] at hv

theorem decReprAux_length :
    ∀ fuel n k, n < 10 ^ k → (decReprAux fuel n).length ≤ k := by
  intro fuel
  induction fuel with
  | zero => intro n k _; simp [decReprAux]
  | succ f ih =>
    intro n k h
    by_cases hn : n = 0
    · subst hn; simp [decReprAux]
    · rw [decReprAux, if_neg hn, List.length_append, List.length_singleton]
      match k with
      | 0 => omega
      | k' + 1 =>
        have hd : n / 10 < 10 ^ k' := by
          rw [Nat.div_lt_iff_lt_mul (by norm_num)]
          calc n < 10 ^ (k' + 1) := h
            _ = 10 ^ k' * 10 := by rw [pow_succ]
        have := ih (n / 10) k' hd
        omega

theorem decRepr_length_le {n k : Nat} (hk : 1 ≤ k) (h : n < 10 ^ k) :
    (decRepr n).length ≤ k := by
  by_cases hn : n = 0
  · subst hn; simpa [decRepr] using hk
  · unfold decRepr
    rw [if_neg hn]
    exact decReprAux_length n n k h

theorem padDec_length {w n : Nat} (hw : 1 ≤ w) (h : n < 10 ^ w) :
    (padDec w n).length = w := by
  unfold padDec
  rw [List.length_append, List.length_replicate]
  have := decRepr_length_le hw h
  omega

/-- The bounds of `validDT`, unpacked to propositions. -/
theorem validDT_bounds {t : DT} (h : validDT t = true) :
    t.year < 10 ^ 4 ∧ t.month < 10 ^ 2 ∧ t.day < 10 ^ 2 ∧
    t.hour < 10 ^ 2 ∧ t.minute < 10 ^ 2 ∧ t.second < 10 ^ 2 := by
  unfold validDT at h
  simp only [Bool.and_eq_true, decide_eq_true_eq] at h
  norm_num
  omega

theorem dateChars_length {t : DT} (h : validDT t = true) :
    (dateChars t).length = 15 := by
  obtain ⟨hy, hmo, hd, hh, hmi, hs⟩ := validDT_bounds h
  unfold dateChars
  simp only [List.length_append, List.length_cons,
    padDec_length (by norm_num) hy, padDec_length (by norm_num) hmo,
    padDec_length (by norm_num) hd, padDec_length (by norm_num) hh,
    padDec_length (by norm_num) hmi, padDec_length (by norm_num) hs]

theorem dateChars_inj {t1 t2 : DT} (h1 : validDT t1 = true) (h2 : validDT t2 = true)
    (h : dateChars t1 = dateChars t2) : t1 = t2 := by
  obtain ⟨hy1, hmo1, hd1, hh1, hmi1, hs1⟩ := validDT_bounds h1
  obtain ⟨hy2, hmo2, hd2, hh2, hmi2, hs2⟩ := validDT_bounds h2
  unfold dateChars at h
  simp only [List.append_assoc] at h
  obtain ⟨hy, h⟩ := List.append_inj h
    (by rw [padDec_length (by norm_num) hy1, padDec_length (by norm_num) hy2])
  obtain ⟨hmo, h⟩ := List.append_inj h
    (by rw [padDec_length (by norm_num) hmo1, padDec_length (by norm_num) hmo2])
  obtain ⟨hd, h⟩ := List.append_inj h
    (by rw [padDec_length (by norm_num) hd1, padDec_length (by norm_num) hd2])
  rw [List.cons_eq_cons] at h
  obtain ⟨-, h⟩ := h
  obtain ⟨hh, h⟩ := List.append_inj h
    (by rw [padDec_length (by norm_num) hh1, padDec_length (by norm_num) hh2])
  obtain ⟨hmi, hs⟩ := List.append_inj h
    (by rw [padDec_length (by norm_num) hmi1, padDec_length (by norm_num) hmi2])
  obtain ⟨y1, mo1, d1, hr1, mi1, s1⟩ := t1
  obtain ⟨y2, mo2, d2, hr2, mi2, s2⟩ := t2
  simp only [DT.mk.injEq]
  exact ⟨padDec_inj hy, padDec_inj hmo, padDec_inj hd,
    padDec_inj hh, padDec_inj hmi, padDec_inj hs⟩

/-- The generated labels determine the domain and the clock reading: two
runs in distinct seconds, or in the same second with distinct domains,
get distinct labels. -/
theorem newAppVersion_inj {d1 d2 : String} {t1 t2 : DT}
    (h1 : validDT t1 = true) (h2 : validDT t2 = true)
    (h : newAppVersion d1 t1 = newAppVersion d2 t2) : d1 = d2 ∧ t1 = t2 := by
  unfold newAppVersion fmtDate at h
  have hd := congrArg String.data h
  simp only [String.data_append] at hd
  rw [List.append_assoc, List.append_assoc] at hd
  have hlen : ("-".data ++ dateChars t1).length = ("-".data ++ dateChars t2).length := by
    simp only [List.length_append, dateChars_length h1, dateChars_length h2]
  obtain ⟨ha, hb⟩ := List.append_inj' hd hlen
  refine ⟨?_, ?_⟩
  · cases d1; cases d2; exact congrArg String.mk ha
  · have : dateChars t1 = dateChars t2 := by simpa using hb
    exact dateChars_inj h1 h2 this

/-- C6: the version label generated by `deploy_app` equals the configured
domain, a hyphen, and the clock reading truncated to seconds in compact
`YYYYMMDD-HHMMSS` form; labels of runs in distinct seconds, or in the same
second for distinct domains, are distinct (the label determines both the
domain and the second). -/
theorem c6_label (cfg : Config) (now t2 : DT) (d2 : String) (uploadOk : Bool)
    (statuses : Nat → String) (updateEnvOk : Bool) (fuel : Nat) (lbl : String)
    (h1 : validDT now = true) (h2 : validDT t2 = true) :
    ((deploy_app cfg now uploadOk statuses updateEnvOk fuel).1 = .ok lbl →
      lbl = cfg.domain ++ "-" ++ fmtDate now) ∧
    (newAppVersion cfg.domain now = newAppVersion d2 t2 →
      cfg.domain = d2 ∧ now = t2) := by
  constructor
  · intro h
    unfold deploy_app at h
    split at h
    · split at h
      · split at h
        · simp only [Prod.fst] at h
          cases h
          rfl
        · simp at h
      · simp at h
    · simp at h
  · exact newAppVersion_inj h1 h2

/-- C6 witness: a concrete successful deployment whose label is the domain,
a hyphen and the compact timestamp. -/
theorem c6_label_witness :
    ((deploy_app cfgEx dtEx true (fun _ => "PROCESSED") true 1).1 =
        .ok "example.com-20240506-070809" →
      "example.com-20240506-070809" = cfgEx.domain ++ "-" ++ fmtDate dtEx) ∧
    (newAppVersion cfgEx.domain dtEx = newAppVersion "example.com" dtEx →
      cfgEx.domain = "example.com" ∧ dtEx = dtEx) :=
  c6_label cfgEx dtEx dtEx "example.com" true (fun _ => "PROCESSED") true 1
    "example.com-20240506-070809" (by decide) (by decide)

/-- C7: the status-poll loop of `deploy_app` has no timeout, backoff or
attempt bound; if the reported status is never the one it waits for, the
loop never terminates — no amount of fuel makes it finish, and `deploy_app`
stays hung rather than returning or exiting. -/
theorem c7_poll_no_timeout (cfg : Config) (now : DT) (uploadOk : Bool)
    (statuses : Nat → String) (updateEnvOk : Bool)
    (h : ∀ n, statuses n ≠ "PROCESSED") (fuel : Nat) :
    pollLoop statuses fuel = false ∧
    (uploadOk = true →
      (deploy_app cfg now uploadOk statuses updateEnvOk fuel).1 = .hung) := by
  have hp : ∀ (g : Nat → String), (∀ n, g n ≠ "PROCESSED") → ∀ f, pollLoop g f = false := by
    intro g hg f
    induction f generalizing g with
    | zero => rfl
    | succ m ih =>
      unfold pollLoop
      rw [ih (fun n => g (n + 1)) (fun n => hg (n + 1))]
      simp [hg 0]
  refine ⟨hp statuses h fuel, fun hu => ?_⟩
  unfold deploy_app
  rw [hu, hp statuses h fuel]
  simp

/-- C7 witness: a concrete always-pending status stream on which the loop
never finishes. -/
theorem c7_poll_no_timeout_witness :
    pollLoop (fun _ => "PENDING") 4 = false ∧
    ((true : Bool) = true →
      (deploy_app cfgEx dtEx true (fun _ => "PENDING") true 4).1 = .hung) :=
  c7_poll_no_timeout cfgEx dtEx true (fun _ => "PENDING") true
    (by intro n; show ("PENDING" : String) ≠ "PROCESSED"; decide) 4

theorem writeListing_data :
    ∀ (l : List String) (pre : String),
      (writeListing pre l).data =
        pre.data ++ (l.map (fun k => k.data ++ ['\n'])).flatten := by
  intro l
  induction l with
  | nil => intro pre; simp [writeListing]
  | cons k rest ih =>
    intro pre
    rw [writeListing, ih, List.map_cons, List.flatten_cons]
    simp [String.data_append]

theorem pyLinesAux_line :
    ∀ (kcs : List Char), '\n' ∉ kcs → ∀ (acc rest : List Char),
      pyLinesAux acc (kcs ++ '\n' :: rest) =
        String.mk (acc.reverse ++ kcs ++ ['\n']) :: pyLinesAux [] rest := by
  intro kcs
  induction kcs with
  | nil => intro _ acc rest; simp [pyLinesAux]
  | cons c cs ih =>
    intro h acc rest
    have hc : ¬(c = '\n') := fun hc => h (by simp [hc])
    rw [List.cons_append, pyLinesAux, if_neg hc,
      ih (fun hm => h (by simp [hm])) (c :: acc) rest]
    simp

theorem mk_data_append_newline (k : String) :
    String.mk (k.data ++ ['\n']) = k ++ "\n" := by
  cases k
  rfl

/-- With an empty pre-existing index file and newline-free keys, the
file-backed search of `check_version` is a first-match scan of the listing
in order: it returns the first key whose line `re.search` matches. -/
theorem searchFile_empty_pre (v : String) (listing : List String)
    (hnl : ∀ k ∈ listing, '\n' ∉ k.data)
    (hst : ∀ k ∈ listing, pyStrip (k ++ "\n") = k) :
    searchFile v "" listing =
      listing.find? (fun k => reSearch (v ++ ".zip") (k ++ "\n")) := by
  unfold searchFile pyLines
  rw [writeListing_data]
  simp only [String.data]
  induction listing with
  | nil => rfl
  | cons k rest ih =>
    have hk : '\n' ∉ k.data := hnl k (by simp)
    rw [List.map_cons, List.flatten_cons, List.nil_append, List.append_assoc,
      List.singleton_append, pyLinesAux_line k.data hk [] _]
    rw [List.reverse_nil, List.nil_append, mk_data_append_newline,
      List.findSome?_cons, List.find?_cons]
    rcases hm : reSearch (v ++ ".zip") (k ++ "\n") with _ | _
    · simp only [hm, Bool.false_eq_true, if_false]
      simpa using ih (fun x hx => hnl x (by simp [hx])) (fun x hx => hst x (by simp [hx]))
    · simp only [hm, if_true]
      rw [hst k (by simp)]

/-- C3 counterexample: the claim says `check_version` returns only keys that
end in the archive suffix `.zip`.  But the source builds the pattern with
`'{0}.zip'.format(current_version)` and hands it to `re.search`, where the
dot matches any character and the match is not anchored at the end of the
key: with live label `v2`, the listing `["v2_zip_backup"]` makes
`check_version` return `v2_zip_backup`, which does not end in `.zip`. -/
theorem c3_counterexample :
    check_version (.ok "v2") "" ["v2_zip_backup"] = .ok (some "v2_zip_backup") ∧
    strEndsWith "v2_zip_backup" ".zip" = false := by
  decide

/-- C3 amended: with newline-free, whitespace-trimmed keys and an empty
index file, `check_version` returns the first key in listing order whose
line the pattern `currentVersion + ".zip"` matches under `re.search` - where
the dot is a wildcard and the match may sit anywhere in the key, so the key
need not end in `.zip`.  On the listing `["v1.zip", "v2.zip", "v3.zip"]`
with live label `v2` this first match is `v2.zip` (see the witness). -/
theorem c3_first_match (v : String) (listing : List String)
    (hnl : ∀ k ∈ listing, '\n' ∉ k.data)
    (hst : ∀ k ∈ listing, pyStrip (k ++ "\n") = k) :
    check_version (.ok v) "" listing =
      .ok (listing.find? (fun k => reSearch (v ++ ".zip") (k ++ "\n"))) := by
  rw [show check_version (.ok v) "" listing = .ok (searchFile v "" listing) from rfl,
    searchFile_empty_pre v listing hnl hst]

/-- C3 witness: the spec example listing, on which the first match is
`v2.zip`. -/
theorem c3_first_match_witness :
    check_version (.ok "v2") "" ["v1.zip", "v2.zip", "v3.zip"] =
      .ok (some "v2.zip") := by
  rw [c3_first_match "v2" ["v1.zip", "v2.zip", "v3.zip"] (by decide) (by decide)]
  decide

/-- C4 counterexample: the claim says a listing with no matching key makes
`check_version` signal an error.  It does not: the loop falls through and
the function returns `None` - a normal, non-error return (the `sys.exit(1)`
path is only taken on exceptions, and no-match raises nothing). -/
theorem c4_counterexample :
    check_version (.ok "v2") "" ["v1.zip"] = .ok none ∧
    check_version (.ok "v2") "" ["v1.zip"] ≠ .error () := by
  constructor
  · decide
  · decide

/-- C4 amended: when no line of the index file matches, `check_version`
returns `None` normally; the run still dies, but only downstream, when
`download_from_s3` is called with `None` as the key and its except branch
exits. -/
theorem c4_no_match_returns_none (v pre : String) (listing : List String)
    (dOk : Bool)
    (h : ∀ line ∈ pyLines (writeListing pre listing),
      reSearch (v ++ ".zip") line = false) :
    check_version (.ok v) pre listing = .ok none ∧
    download_from_s3 none dOk = .error () := by
  refine ⟨?_, rfl⟩
  rw [show check_version (.ok v) pre listing = .ok (searchFile v pre listing) from rfl]
  unfold searchFile
  have hgen : ∀ (l : List String),
      (∀ line ∈ l, reSearch (v ++ ".zip") line = false) →
      (l.findSome? fun line =>
        if reSearch (v ++ ".zip") line then some (pyStrip line) else none) = none := by
    intro l
    induction l with
    | nil => intro _; rfl
    | cons x xs ih =>
      intro hl
      rw [List.findSome?_cons]
      simp only [hl x (by simp), Bool.false_eq_true, if_false]
      exact ih (fun y hy => hl y (by simp [hy]))
  rw [hgen (pyLines (writeListing pre listing)) h]

/-- C4 witness: a concrete no-match run returning `None` normally and the
downstream exit on the `None` key. -/
theorem c4_no_match_returns_none_witness :
    check_version (.ok "v9") "" ["alpha.zip"] = .ok none ∧
    download_from_s3 none true = .error () :=
  c4_no_match_returns_none "v9" "" ["alpha.zip"] true (by decide)

/-- C9: for customer `acme` and domain `example.com` (with the sample RDS
connection values), `create_vhost` writes `acme.conf` containing exactly one
virtual-host block, with the `ServerName acme.example.com` line, the
`ServerAlias www.acme.example.com` line, and the database connection
parameters (host, database name equal to the customer id, username,
password, port) as `SetEnv` assignments. -/
theorem c9_vhost_block :
    create_vhost "acme" "/tmp/v2" cfgEx true =
      .ok ("/tmp/v2/.ebextensions/vhosts/acme.conf", vhostEx) ∧
    strCount "<VirtualHost" vhostEx = 1 ∧
    strCount "</VirtualHost>" vhostEx = 1 ∧
    strCount "    ServerName acme.example.com\n" vhostEx = 1 ∧
    strCount "    ServerAlias www.acme.example.com\n" vhostEx = 1 ∧
    strCount "SetEnv RDS_HOSTNAME \"db.internal\"" vhostEx = 1 ∧
    strCount "SetEnv RDS_DB_NAME \"acme\"" vhostEx = 1 ∧
    strCount "SetEnv RDS_USERNAME \"appuser\"" vhostEx = 1 ∧
    strCount "SetEnv RDS_PASSWORD \"secret\"" vhostEx = 1 ∧
    strCount "SetEnv RDS_PORT \"3306\"" vhostEx = 1 := by
  set_option maxRecDepth 40000 in decide

/-- C10: `check_version` opens `/tmp/object_list.txt` in append mode, so
pre-existing contents (for example a stale listing left by a failed earlier
run, whose exit path skips cleanup) are retained ahead of the freshly
written listing and searched first: with stale line `stale-v2.zip` and
current listing `["new-v2.zip"]`, it returns `stale-v2.zip`, a key that is
not in the current bucket listing at all. -/
theorem c10_append_mode :
    writeListing "stale-v2.zip\n" ["new-v2.zip"] = "stale-v2.zip\nnew-v2.zip\n" ∧
    check_version (.ok "v2") "stale-v2.zip\n" ["new-v2.zip"] =
      .ok (some "stale-v2.zip") ∧
    "stale-v2.zip" ∉ ["new-v2.zip"] := by
  decide

theorem mainAfterDb_ok (customer url : String) (cfg : Config) (env : Env)
    (fuel : Nat) (rb : Bool) (out : Output)
    (h : (mainAfterDb customer url cfg env fuel rb).outcome = .ok out) :
    out.CustomerName = customer ∧ out.Domain = url ∧ out.RdsDbName = customer ∧
    out.Status = "deployed" := by
  unfold mainAfterDb at h
  split at h
  · simp at h
  · simp at h
  · split at h
    · simp at h
    · simp only [MainRes.outcome, RunOutcome.ok.injEq] at h
      subst h
      exact ⟨rfl, rfl, rfl, rfl⟩

/-- C2: whenever a run of the invocation boundary returns successfully, the
returned payload has `Domain = customerId ++ "." ++ domain`,
`RdsDbName = customerId` and `Status = "deployed"` (in particular for every
customer id matching the identifier grammar). -/
theorem c2_success_fields (c : String) (cfg : Config) (env : Env) (fuel : Nat)
    (out : Output) (_hv : validIdent c = true)
    (h : (mainRun (some c) cfg env fuel).outcome = .ok out) :
    out.Domain = c ++ "." ++ cfg.domain ∧ out.RdsDbName = c ∧
    out.Status = "deployed" := by
  simp only [mainRun] at h
  split at h
  · simp at h
  · split at h
    · simp at h
    · split at h
      · simp at h
      · split at h
        · simp at h
        · have hf := mainAfterDb_ok _ _ _ _ _ _ _ h
          exact ⟨hf.2.1, hf.2.2.1, hf.2.2.2⟩

/-- C2 witness: the concrete all-success run for customer `acme`. -/
theorem c2_success_fields_witness :
    validIdent "acme" = true ∧
    (mainRun (some "acme") cfgEx envGood 1).outcome = .ok outEx ∧
    (outEx.Domain = "acme" ++ "." ++ cfgEx.domain ∧ outEx.RdsDbName = "acme" ∧
      outEx.Status = "deployed") :=
  ⟨by decide, by decide,
    c2_success_fields "acme" cfgEx envGood 1 outEx (by decide) (by decide)⟩

/-- C1 counterexample: the claim says the cleanup operation executes on
every exit path of the orchestrator.  It does not: `clean_up` is called at
exactly one place, on the success path of `deploy_app`; when an earlier
stage fails — here the Elastic Beanstalk version query — the run exits via
`sys.exit(1)` without any cleanup, leaving the index file and extraction
directory behind. -/
theorem c1_counterexample :
    (mainRun (some "acme") cfgEx { envGood with ebVersion := .error () } 1).outcome =
      .exited ∧
    (mainRun (some "acme") cfgEx { envGood with ebVersion := .error () } 1).cleanupRan =
      false := by
  decide

/-- C1 amended: cleanup runs exactly on the runs that reach `deploy_app` and
complete its upload, poll and environment update; every other exit path
(including a later DNS failure only as far as it happens after the cleanup
call) terminates without deleting the transient index file and extraction
directory. -/
theorem c1_cleanup_iff (customer? : Option String) (cfg : Config) (env : Env)
    (fuel : Nat) :
    (mainRun customer? cfg env fuel).cleanupRan =
      (reachesDeployB customer? env && deployCompletesB env fuel) := by
  rcases env with ⟨ebV, pre, listing, dOk, vOk, cOk, eOk, upOk, polls, updOk, dnsOk, now⟩
  cases customer? with
  | none => simp [mainRun, reachesDeployB]
  | some c =>
    simp only [mainRun, reachesDeployB, keyFound, deployCompletesB,
      Option.isSome_some, Bool.true_and]
    cases ebV with
    | error e => simp [check_version]
    | ok v =>
      simp only [check_version]
      rcases hk : searchFile v pre listing with _ | k
      · simp [download_from_s3, hk]
      · simp only [hk, download_from_s3, Option.isSome_some, Bool.true_and]
        cases dOk
        · simp
        · cases vOk
          · simp [create_vhost]
          · cases cOk
            · simp [create_vhost, create_db]
            · simp only [create_db, create_vhost, if_true]
              unfold mainAfterDb deploy_app
              cases upOk
              · simp
              · rcases hp : pollLoop polls fuel with _ | _
                · simp [hp]
                · cases updOk
                  · simp [hp]
                  · cases dnsOk <;> simp [hp, create_dns_record]

theorem mainAfterDb_rb (customer url : String) (cfg : Config) (env : Env)
    (fuel : Nat) (rb1 rb2 : Bool) :
    (mainAfterDb customer url cfg env fuel rb1).outcome =
      (mainAfterDb customer url cfg env fuel rb2).outcome ∧
    (mainAfterDb customer url cfg env fuel rb1).cleanupRan =
      (mainAfterDb customer url cfg env fuel rb2).cleanupRan ∧
    (mainAfterDb customer url cfg env fuel rb1).dnsRequested =
      (mainAfterDb customer url cfg env fuel rb2).dnsRequested := by
  unfold mainAfterDb
  rcases deploy_app cfg env.now env.uploadOk env.pollStatuses env.updateEnvOk fuel with ⟨o, cl⟩
  cases o with
  | hung => simp
  | exited => simp
  | ok lbl => cases create_dns_record url env.dnsOk <;> simp

/-- C5 counterexample: the claim says every execution error inside database
provisioning — including a failure to connect — is swallowed, so the
pipeline always continues to the deployment and DNS stages.  But
`pymysql.connect` runs outside the try block of `create_db`: a connection
failure raises into `main`, which exits; in this run deployment never
happens (no cleanup, which only the deploy success path does) and no DNS
change is ever requested. -/
theorem c5_counterexample :
    (mainRun (some "acme") cfgEx { envGood with dbConnectOk := false } 1).outcome =
      .exited ∧
    (mainRun (some "acme") cfgEx { envGood with dbConnectOk := false } 1).dnsRequested =
      none ∧
    (mainRun (some "acme") cfgEx { envGood with dbConnectOk := false } 1).cleanupRan =
      false := by
  decide

/-- C5 amended: only errors raised by the DDL statements are swallowed —
`create_db` then logs, rolls back and returns normally, and the run is
bitwise independent of whether the DDL failed (same outcome, same cleanup,
same DNS request); a connection failure, by contrast, propagates and aborts
the run (see the counterexample). -/
theorem c5_ddl_swallowed (c : String) (cfg : Config) (env : Env) (fuel : Nat)
    (h : env.dbConnectOk = true) :
    create_db true false = .ok true ∧
    (mainRun (some c) cfg { env with dbExecOk := false } fuel).outcome =
      (mainRun (some c) cfg { env with dbExecOk := true } fuel).outcome ∧
    (mainRun (some c) cfg { env with dbExecOk := false } fuel).cleanupRan =
      (mainRun (some c) cfg { env with dbExecOk := true } fuel).cleanupRan ∧
    (mainRun (some c) cfg { env with dbExecOk := false } fuel).dnsRequested =
      (mainRun (some c) cfg { env with dbExecOk := true } fuel).dnsRequested := by
  refine ⟨rfl, ?_⟩
  rcases env with ⟨ebV, pre, listing, dOk, vOk, cOk, eOk, upOk, polls, updOk, dnsOk, now⟩
  simp only at h
  subst h
  simp only [mainRun]
  cases ebV with
  | error e => simp [check_version]
  | ok v =>
    simp only [check_version]
    rcases hk : searchFile v pre listing with _ | k
    · simp [download_from_s3, hk]
    · simp only [hk, download_from_s3]
      cases dOk
      · simp
      · cases vOk
        · simp [create_vhost]
        · simp only [create_vhost, if_true, create_db]
          exact mainAfterDb_rb _ _ _ _ _ _ _

/-- C5 witness: the all-success run with a failing DDL statement reaches the
same outcome, cleanup and DNS request as with a succeeding one. -/
theorem c5_ddl_swallowed_witness :
    create_db true false = .ok true ∧
    (mainRun (some "acme") cfgEx { envGood with dbExecOk := false } 1).outcome =
      (mainRun (some "acme") cfgEx { envGood with dbExecOk := true } 1).outcome ∧
    (mainRun (some "acme") cfgEx { envGood with dbExecOk := false } 1).cleanupRan =
      (mainRun (some "acme") cfgEx { envGood with dbExecOk := true } 1).cleanupRan ∧
    (mainRun (some "acme") cfgEx { envGood with dbExecOk := false } 1).dnsRequested =
      (mainRun (some "acme") cfgEx { envGood with dbExecOk := true } 1).dnsRequested :=
  c5_ddl_swallowed "acme" cfgEx envGood 1 rfl

/-- C8 counterexample: the claim says the pipeline validates `customerId`
before any external side effect and rejects malformed identifiers.  The
source contains no validation at all: the malformed identifier `bad id!`
(space and bang, not alphanumeric or underscore) flows through the whole
run — the `CREATE DATABASE` statement is issued for it, the DNS change is
requested for `bad id!.example.com`, and the run returns a success payload
built from it. -/
theorem c8_counterexample :
    validIdent "bad id!" = false ∧
    (mainRun (some "bad id!") cfgEx envGood 1).outcome =
      .ok { CustomerName := "bad id!",
            DeploymentVersion := "example.com-20240506-070809",
            Status := "deployed", RdsHostname := "db.internal",
            RdsDbName := "bad id!", RdsPort := "3306",
            Domain := "bad id!.example.com", EnvId := "e-123",
            EnvName := "prod" } ∧
    (mainRun (some "bad id!") cfgEx envGood 1).dbCreateIssued = some "bad id!" ∧
    (mainRun (some "bad id!") cfgEx envGood 1).dnsRequested =
      some "bad id!.example.com" := by
  decide

/-- C8 amended: no identifier check exists on any path — for every string
`c`, well-formed or not, a run whose stages up to the database connection
succeed issues `CREATE DATABASE` for `c` as given, and if the deployment
also completes, requests the DNS record for `c ++ "." ++ domain` as
given. -/
theorem c8_no_validation (c : String) (cfg : Config) (env : Env) (fuel : Nat)
    (v k : String) (h1 : env.ebVersion = .ok v)
    (h2 : searchFile v env.preFile env.listing = some k)
    (h3 : env.downloadOk = true) (h4 : env.vhostWriteOk = true)
    (h5 : env.dbConnectOk = true) :
    (mainRun (some c) cfg env fuel).dbCreateIssued = some c ∧
    (deployCompletesB env fuel = true →
      (mainRun (some c) cfg env fuel).dnsRequested =
        some (c ++ "." ++ cfg.domain)) := by
  rcases env with ⟨ebV, pre, listing, dOk, vOk, cOk, eOk, upOk, polls, updOk, dnsOk, now⟩
  simp only at h1 h2 h3 h4 h5
  subst h1 h3 h4 h5
  simp only [mainRun, check_version, h2, download_from_s3, create_vhost, if_true,
    create_db, deployCompletesB]
  unfold mainAfterDb deploy_app
  cases upOk
  · simp [mainAfterDb]
  · rcases hp : pollLoop polls fuel with _ | _
    · simp [hp]
    · cases updOk
      · simp [hp]
      · cases dnsOk <;> simp [hp, create_dns_record]

/-- C8 witness: a concrete run in which the (well-formed) identifier is
passed through to the database and DNS systems unchecked. -/
theorem c8_no_validation_witness :
    (mainRun (some "tenant1") cfgEx envGood 1).dbCreateIssued = some "tenant1" ∧
    (deployCompletesB envGood 1 = true →
      (mainRun (some "tenant1") cfgEx envGood 1).dnsRequested =
        some ("tenant1" ++ "." ++ cfgEx.domain)) :=
  c8_no_validation "tenant1" cfgEx envGood 1 "v2" "v2.zip" rfl (by decide) rfl rfl rfl
